import Mathlib

/-
Shallow embedding of the C++11 `Result<T, E>` container from
`src/cpp_rust_result.hpp`, together with its hook registry
(logError / terminateProgram / setLogHook / setTerminateHook / clearHooks),
its combinators (map / andThen), its extraction operations
(unwrap / unwrapErr / expect / unwrapOr / unwrapOrElse) and its pattern
match.  Side effects of the C++ code (invoking the log hook, writing to
standard error, invoking the terminate hook, aborting the process) are made
explicit as event values; callable invocations performed by combinators are
recorded as the list of arguments the callable is applied to.
-/

namespace CppRustResult

/-- TermHook models the state of the terminate-hook slot of the registry.
Either the slot is empty (`std::terminate` fires), or a hook is installed;
an installed C++ hook may or may not return control to the caller, which is
recorded here because the subsequent behaviour of `unwrap`-style operations
depends on it. -/
inductive TermHook where
  | noHook
  | hookHalts
  | hookReturns
deriving DecidableEq

/-- Hooks is the per-(T,E) hook registry: `log_hook` and `terminate_hook`
static slots of the C++ class.  `logHookSet` records whether a log function
is registered. -/
structure Hooks where
  logHookSet : Bool
  termHook : TermHook
deriving DecidableEq

/-- LogEvent is the observable effect of one call to `logError`:
either the registered log hook is invoked with the message, or the message
is written to the standard error stream. -/
inductive LogEvent where
  | hookCall (message : String)
  | stderr (message : String)
deriving DecidableEq

/-- TermEvent is the observable effect of one call to `terminateProgram`:
either the registered terminate hook is invoked, or `std::terminate` aborts
the process. -/
inductive TermEvent where
  | hookCall
  | stdTerminate
deriving DecidableEq

/-- logError embeds `Result::logError` (src/cpp_rust_result.hpp lines 33-41):
if a log hook is registered it is invoked on the message, otherwise the
message goes to `std::cerr`. -/
def logError (hooks : Hooks) (message : String) : LogEvent :=
  if hooks.logHookSet then LogEvent.hookCall message else LogEvent.stderr message

/-- terminateProgram embeds `Result::terminateProgram` (lines 44-51): if a
terminate hook is registered it is invoked, otherwise `std::terminate`. -/
def terminateProgram (hooks : Hooks) : TermEvent :=
  match hooks.termHook with
  | TermHook.noHook => TermEvent.stdTerminate
  | TermHook.hookHalts => TermEvent.hookCall
  | TermHook.hookReturns => TermEvent.hookCall

/-- termContinues tells whether control returns to the caller after
`terminateProgram`: only when an installed terminate hook returns normally. -/
def termContinues (hooks : Hooks) : Bool :=
  match hooks.termHook with
  | TermHook.hookReturns => true
  | _ => false

/-- setLogHook embeds `Result::setLogHook` (lines 98-101). -/
def setLogHook (hooks : Hooks) (hook : Bool) : Hooks :=
  { hooks with logHookSet := hook }

/-- setTerminateHook embeds `Result::setTerminateHook` (lines 103-106). -/
def setTerminateHook (hooks : Hooks) (hook : TermHook) : Hooks :=
  { hooks with termHook := hook }

/-- clearHooks embeds `Result::clearHooks` (lines 108-112): both slots are
set to `nullptr`. -/
def clearHooks (_ : Hooks) : Hooks :=
  { logHookSet := false, termHook := TermHook.noHook }

/-- Result embeds the tagged union storage of the C++ class: exactly one of
the success payload `value : T` (with `is_ok = true`) or the error payload
`error : E` (with `is_ok = false`) is live. -/
inductive Result (T E : Type) where
  | Ok (value : T)
  | Err (error : E)
deriving DecidableEq

/-- ExtractOutcome records everything observable about one call to an
extraction operation: the log events it emitted, the termination events it
triggered, and the value it returned (`none` when control never returns to
the caller because the process halted). -/
structure ExtractOutcome (A : Type) where
  logs : List LogEvent
  terms : List TermEvent
  ret : Option A
deriving DecidableEq

/-- CombRun records everything observable about one call to a combinator:
the resulting container, the list of arguments the supplied callable was
invoked on, and any hook events (the C++ combinator bodies contain no hook
calls, which the embedding reflects). -/
structure CombRun (R A : Type) where
  result : R
  calls : List A
  logs : List LogEvent
  terms : List TermEvent
deriving DecidableEq

/-- MatchCall records which of the two callbacks `match` invoked and with
which live payload. -/
inductive MatchCall (T E : Type) where
  | onOk (value : T)
  | onErr (error : E)
deriving DecidableEq

namespace Result

variable {T E U V W : Type}

/-- isOk embeds `Result::isOk` (line 140): returns the discriminant. -/
def isOk : Result T E → Bool
  | Result.Ok _ => true
  | Result.Err _ => false

/-- isErr embeds `Result::isErr` (line 141): returns the negated
discriminant. -/
def isErr (r : Result T E) : Bool := !r.isOk

/-- formatError embeds `Result::formatError` (lines 54-67).  The error-to-
text conversion `errorToString` is a customization point of the C++ class
(generic stream conversion, specialized to identity on strings); it is
passed here as the function `e2s`. -/
def formatError (e2s : E → String) (context : String) : Result T E → String
  | Result.Err e =>
      (if context = "" then "" else context ++ ": ") ++ e2s e
  | Result.Ok _ =>
      (if context = "" then "" else context ++ ": ") ++
        "Attempted to unwrapErr an Ok value"

/-- unwrap embeds `Result::unwrap` (lines 146-154).  `tDefault` stands for
the default-constructed `T\x7b\x7d` the C++ code returns when the terminate hook
returns control; `ret = none` means control never came back. -/
def unwrap (e2s : E → String) (hooks : Hooks) (tDefault : T) (context : String) :
    Result T E → ExtractOutcome T
  | Result.Ok v => { logs := [], terms := [], ret := some v }
  | Result.Err e =>
      { logs := [logError hooks ("FATAL: Attempted to unwrap an Err value - " ++
          formatError e2s context (Result.Err e : Result T E))],
        terms := [terminateProgram hooks],
        ret := if termContinues hooks then some tDefault else none }

/-- unwrapErr embeds `Result::unwrapErr` (lines 156-164); `eDefault` stands
for the default-constructed `E\x7b\x7d`. -/
def unwrapErr (e2s : E → String) (hooks : Hooks) (eDefault : E) (context : String) :
    Result T E → ExtractOutcome E
  | Result.Err e => { logs := [], terms := [], ret := some e }
  | Result.Ok v =>
      { logs := [logError hooks ("FATAL: Attempted to unwrapErr an Ok value - " ++
          formatError e2s context (Result.Ok v : Result T E))],
        terms := [terminateProgram hooks],
        ret := if termContinues hooks then some eDefault else none }

/-- expect embeds `Result::expect` (lines 185-193). -/
def expect (e2s : E → String) (hooks : Hooks) (tDefault : T) (expectation : String) :
    Result T E → ExtractOutcome T
  | Result.Ok v => { logs := [], terms := [], ret := some v }
  | Result.Err e =>
      { logs := [logError hooks ("FATAL: " ++ ("Expectation failed: " ++ expectation ++
          ". " ++ formatError e2s "" (Result.Err e : Result T E)))],
        terms := [terminateProgram hooks],
        ret := if termContinues hooks then some tDefault else none }

/-- unwrapOr embeds `Result::unwrapOr` (lines 196-198): the success payload,
or the eagerly supplied fallback; its body contains no hook call. -/
def unwrapOr (default_val : T) : Result T E → ExtractOutcome T
  | Result.Ok v => { logs := [], terms := [], ret := some v }
  | Result.Err _ => { logs := [], terms := [], ret := some default_val }

/-- unwrapOrElse embeds `Result::unwrapOrElse` (lines 200-203): the success
payload, or the value of the lazily invoked fallback; no hook call. -/
def unwrapOrElse (fallback : Unit → T) : Result T E → ExtractOutcome T
  | Result.Ok v => { logs := [], terms := [], ret := some v }
  | Result.Err _ => { logs := [], terms := [], ret := some (fallback ()) }

/-- unwrapOrLog embeds `Result::unwrapOrLog` (lines 167-173): the success
payload, or — after logging a RECOVERABLE-tagged message — the supplied
default value; no termination on either path. -/
def unwrapOrLog (e2s : E → String) (hooks : Hooks) (default_val : T) (context : String) :
    Result T E → ExtractOutcome T
  | Result.Ok v => { logs := [], terms := [], ret := some v }
  | Result.Err e =>
      { logs := [logError hooks ("RECOVERABLE: " ++
          formatError e2s context (Result.Err e : Result T E))],
        terms := [],
        ret := some default_val }

/-- unwrapChecked embeds `Result::unwrapChecked` (lines 176-182): the
success payload, or — after logging a warning-tagged message — the
default-constructed `T\x7b\x7d` (modelled by `tDefault`); no termination. -/
def unwrapChecked (hooks : Hooks) (tDefault : T) : Result T E → ExtractOutcome T
  | Result.Ok v => { logs := [], terms := [], ret := some v }
  | Result.Err _ =>
      { logs := [logError hooks "Warning: Attempted to unwrapChecked an Err value"],
        terms := [],
        ret := some tDefault }

/-- map embeds `Result::map` (lines 213-220): apply the mapper to the
success payload, or relocate the error unchanged. -/
def map (mapper : T → U) : Result T E → Result U E
  | Result.Ok v => Result.Ok (mapper v)
  | Result.Err e => Result.Err e

/-- andThen embeds `Result::andThen` (lines 232-241): monadic bind on the
success path; on error the error relocates unchanged. -/
def andThen (f : T → Result U E) : Result T E → Result U E
  | Result.Ok v => f v
  | Result.Err e => Result.Err e

/-- mapRun is `Result::map` with its observable effects made explicit: the
list of arguments `mapper` is invoked on (exactly the success payload, on
the success branch only) and the hook events (none — the body of `map` never
calls `logError` or `terminateProgram`). -/
def mapRun (mapper : T → U) : Result T E → CombRun (Result U E) T
  | Result.Ok v => { result := Result.Ok (mapper v), calls := [v], logs := [], terms := [] }
  | Result.Err e => { result := Result.Err e, calls := [], logs := [], terms := [] }

/-- andThenRun is `Result::andThen` with its observable effects made
explicit, in the same way as `mapRun`. -/
def andThenRun (f : T → Result U E) : Result T E → CombRun (Result U E) T
  | Result.Ok v => { result := f v, calls := [v], logs := [], terms := [] }
  | Result.Err e => { result := Result.Err e, calls := [], logs := [], terms := [] }

/-- matchRun embeds `Result::match` (lines 206-210 of the first version,
478-482 of the second, where it is a const member taking the payloads by
const reference): it reports which callback is invoked with which payload,
and leaves the receiver unchanged, which the second component records. -/
def matchRun : Result T E → MatchCall T E × Result T E
  | Result.Ok v => (MatchCall.onOk v, Result.Ok v)
  | Result.Err e => (MatchCall.onErr e, Result.Err e)

end Result

/-- Modelled from the spec: the "No-payload Success Variant" (spec section
4.6) is described by the spec but no specialization for a data-free success
type is present under src/; this inductive follows the spec's words: storage
holds only the error payload plus the discriminant, success carries
nothing, and `MakeOk()` takes no argument (the `Ok` constructor is
nullary). -/
inductive ResultUnit (E : Type) where
  | Ok
  | Err (error : E)
deriving DecidableEq

namespace ResultUnit

variable {E U : Type}

/-- Modelled from the spec: `IsOk` of the no-payload variant. -/
def isOk : ResultUnit E → Bool
  | ResultUnit.Ok => true
  | ResultUnit.Err _ => false

/-- Modelled from the spec: `IsErr` of the no-payload variant. -/
def isErr (r : ResultUnit E) : Bool := !r.isOk

/-- Modelled from the spec: `Map(f: () -> U)` of the no-payload variant
invokes its callable with no argument on the success path; effects are made
explicit as in `Result.mapRun` (the recorded argument is the empty
argument list, i.e. `()`). -/
def mapRun (f : Unit → U) : ResultUnit E → CombRun (Result U E) Unit
  | ResultUnit.Ok => { result := Result.Ok (f ()), calls := [()], logs := [], terms := [] }
  | ResultUnit.Err e => { result := Result.Err e, calls := [], logs := [], terms := [] }

/-- Modelled from the spec: `AndThen(f: () -> Result(U,E))` of the
no-payload variant. -/
def andThen (f : Unit → Result U E) : ResultUnit E → Result U E
  | ResultUnit.Ok => f ()
  | ResultUnit.Err e => Result.Err e

/-- Modelled from the spec: `Unwrap` of the no-payload variant returns
nothing on success and follows the identical fatal policy on error as the
general variant's `unwrap`. -/
def unwrap (e2s : E → String) (hooks : Hooks) (context : String) :
    ResultUnit E → ExtractOutcome Unit
  | ResultUnit.Ok => { logs := [], terms := [], ret := some () }
  | ResultUnit.Err e =>
      { logs := [logError hooks ("FATAL: Attempted to unwrap an Err value - " ++
          ((if context = "" then "" else context ++ ": ") ++ e2s e))],
        terms := [terminateProgram hooks],
        ret := if termContinues hooks then some () else none }

/-- Modelled from the spec: `Expect` of the no-payload variant — on success
it returns nothing; on error it follows the identical fatal policy of
section 4.4: log the fatal expectation message, then terminate. -/
def expect (e2s : E → String) (hooks : Hooks) (expectation : String) :
    ResultUnit E → ExtractOutcome Unit
  | ResultUnit.Ok => { logs := [], terms := [], ret := some () }
  | ResultUnit.Err e =>
      { logs := [logError hooks ("FATAL: " ++ ("Expectation failed: " ++ expectation ++
          ". " ++ e2s e))],
        terms := [terminateProgram hooks],
        ret := if termContinues hooks then some () else none }

/-- Modelled from the spec: `UnwrapErr` of the no-payload variant — on
error it returns the error payload; called on success it follows the
identical fatal policy: log the fatal message built with the context
prefix, then terminate, the default-constructed error (modelled by
`eDefault`) being returned only when the terminate hook returns. -/
def unwrapErr (hooks : Hooks) (eDefault : E) (context : String) :
    ResultUnit E → ExtractOutcome E
  | ResultUnit.Err e => { logs := [], terms := [], ret := some e }
  | ResultUnit.Ok =>
      { logs := [logError hooks ("FATAL: Attempted to unwrapErr an Ok value - " ++
          ((if context = "" then "" else context ++ ": ") ++
            "Attempted to unwrapErr an Ok value"))],
        terms := [terminateProgram hooks],
        ret := if termContinues hooks then some eDefault else none }

/-- Modelled from the spec: `UnwrapOr` of the no-payload variant — success
carries nothing, so both paths return without logging or terminating (on
error the fallback, itself of the no-value type, is returned). -/
def unwrapOr (default_val : Unit) : ResultUnit E → ExtractOutcome Unit
  | ResultUnit.Ok => { logs := [], terms := [], ret := some () }
  | ResultUnit.Err _ => { logs := [], terms := [], ret := some default_val }

/-- Modelled from the spec: `UnwrapOrElse` of the no-payload variant — the
fallback is invoked lazily on the error path only; no logging, no
termination. -/
def unwrapOrElse (fallback : Unit → Unit) : ResultUnit E → ExtractOutcome Unit
  | ResultUnit.Ok => { logs := [], terms := [], ret := some () }
  | ResultUnit.Err _ => { logs := [], terms := [], ret := some (fallback ()) }

/-- Modelled from the spec: `UnwrapOrLog` of the no-payload variant — on
error it logs the identical RECOVERABLE-tagged message (context prefix plus
stringified error) and returns, with no termination. -/
def unwrapOrLog (e2s : E → String) (hooks : Hooks) (context : String) :
    ResultUnit E → ExtractOutcome Unit
  | ResultUnit.Ok => { logs := [], terms := [], ret := some () }
  | ResultUnit.Err e =>
      { logs := [logError hooks ("RECOVERABLE: " ++
          ((if context = "" then "" else context ++ ": ") ++ e2s e))],
        terms := [],
        ret := some () }

/-- Modelled from the spec: `UnwrapChecked` of the no-payload variant — on
error it logs the identical warning-tagged message and returns the
no-value default, with no termination. -/
def unwrapChecked (hooks : Hooks) : ResultUnit E → ExtractOutcome Unit
  | ResultUnit.Ok => { logs := [], terms := [], ret := some () }
  | ResultUnit.Err _ =>
      { logs := [logError hooks "Warning: Attempted to unwrapChecked an Err value"],
        terms := [],
        ret := some () }

end ResultUnit

/-- C1: for every value `v`, `Result.Ok v` has `isOk = true` and
`isErr = false`; for every error `e`, `Result.Err e` has `isErr = true` and
`isOk = false`; and for every instance, `isOk` and `isErr` are mutually
exclusive and exhaustive (exactly one of them is true). -/
theorem C1_construction_and_discriminant {T E : Type} (v : T) (e : E) (r : Result T E) :
    (Result.Ok v : Result T E).isOk = true ∧
    (Result.Ok v : Result T E).isErr = false ∧
    (Result.Err e : Result T E).isErr = true ∧
    (Result.Err e : Result T E).isOk = false ∧
    ((r.isOk = true ∧ r.isErr = false) ∨ (r.isOk = false ∧ r.isErr = true)) := by
  refine ⟨rfl, rfl, rfl, rfl, ?_⟩
  cases r
  · exact Or.inl ⟨rfl, rfl⟩
  · exact Or.inr ⟨rfl, rfl⟩

/-- C2: `Result.Err e` under `map f` and `andThen g` never invokes the
callable (its recorded call list is empty), yields the error state holding
`e` unchanged, and triggers no log or terminate hook; on the success path
the combinators are likewise hook-silent. -/
theorem C2_err_combinators_short_circuit {T U E : Type} (e : E) (v : T)
    (f : T → U) (g : T → Result U E) :
    (Result.Err e : Result T E).mapRun f =
      { result := Result.Err e, calls := [], logs := [], terms := [] } ∧
    (Result.Err e : Result T E).andThenRun g =
      { result := Result.Err e, calls := [], logs := [], terms := [] } ∧
    ((Result.Ok v : Result T E).mapRun f).logs = [] ∧
    ((Result.Ok v : Result T E).mapRun f).terms = [] ∧
    ((Result.Ok v : Result T E).andThenRun g).logs = [] ∧
    ((Result.Ok v : Result T E).andThenRun g).terms = [] :=
  ⟨rfl, rfl, rfl, rfl, rfl, rfl⟩

/-- C3: `andThen` satisfies the monad laws — left identity, right identity
and associativity — and the concrete scenario: for `f x = Ok (x+1)` and
`g x = Ok (x*10)`, both sides of the associativity equation applied to
`Ok 5` evaluate to a success holding `60`. -/
theorem C3_andThen_monad_laws {T U V E : Type} (x : T)
    (f : T → Result U E) (g : U → Result V E) (m : Result T E)
    (m2 : Result T E) :
    (Result.Ok x : Result T E).andThen f = f x ∧
    m2.andThen Result.Ok = m2 ∧
    (m.andThen f).andThen g = m.andThen (fun y => (f y).andThen g) ∧
    (((Result.Ok 5 : Result Nat String).andThen (fun n => Result.Ok (n + 1))).andThen
        (fun n => Result.Ok (n * 10)) = Result.Ok 60) ∧
    ((Result.Ok 5 : Result Nat String).andThen
        (fun n => (Result.Ok (n + 1) : Result Nat String).andThen
          (fun k => Result.Ok (k * 10))) = Result.Ok 60) := by
  refine ⟨rfl, ?_, ?_, rfl, rfl⟩
  · cases m2 <;> rfl
  · cases m <;> rfl

/-- C4: `map` satisfies the functor laws on the success state: mapping the
identity yields a success holding the same value, and mapping `f` then `g`
equals mapping the composition `x => g (f x)`; the composition law holds on
every result. -/
theorem C4_map_functor_laws {T U V E : Type} (v : T) (f : T → U) (g : U → V)
    (r : Result T E) :
    (Result.Ok v : Result T E).map id = Result.Ok v ∧
    ((Result.Ok v : Result T E).map f).map g =
      (Result.Ok v : Result T E).map (fun x => g (f x)) ∧
    (r.map f).map g = r.map (fun x => g (f x)) := by
  refine ⟨rfl, rfl, ?_⟩
  cases r <;> rfl

/-- C5: `unwrapOr d` returns the success payload on success and `d` on
error; `unwrapOrElse fb` returns the success payload on success and
`fb ()` on error; on every path neither operation emits a log event or a
terminate event. -/
theorem C5_unwrapOr_silent {T E : Type} (v : T) (e : E) (d : T) (fb : Unit → T) :
    (Result.Ok v : Result T E).unwrapOr d = { logs := [], terms := [], ret := some v } ∧
    (Result.Err e : Result T E).unwrapOr d = { logs := [], terms := [], ret := some d } ∧
    (Result.Ok v : Result T E).unwrapOrElse fb =
      { logs := [], terms := [], ret := some v } ∧
    (Result.Err e : Result T E).unwrapOrElse fb =
      { logs := [], terms := [], ret := some (fb ()) } :=
  ⟨rfl, rfl, rfl, rfl⟩

/-- C6: `unwrap context` on an error logs exactly the message
`FATAL: Attempted to unwrap an Err value - ` followed by `context ++ ": "`
(when `context` is non-empty, nothing otherwise) and the stringified error,
then triggers termination exactly once; on a success it returns the payload
with no log and no terminate event. -/
theorem C6_unwrap_fatal_path {T E : Type} (e2s : E → String) (hooks : Hooks)
    (d : T) (context : String) (e : E) (v : T) :
    (Result.Err e : Result T E).unwrap e2s hooks d context =
      { logs := [logError hooks ("FATAL: Attempted to unwrap an Err value - " ++
          (if context = "" then "" else context ++ ": ") ++ e2s e)],
        terms := [terminateProgram hooks],
        ret := if termContinues hooks then some d else none } ∧
    ((Result.Err e : Result T E).unwrap e2s hooks d context).terms.length = 1 ∧
    (Result.Ok v : Result T E).unwrap e2s hooks d context =
      { logs := [], terms := [], ret := some v } := by
  refine ⟨?_, rfl, rfl⟩
  show ({ logs := [logError hooks ("FATAL: Attempted to unwrap an Err value - " ++
      ((if context = "" then "" else context ++ ": ") ++ e2s e))], terms := _, ret := _ }
      : ExtractOutcome T) = _
  rw [← String.append_assoc]

/-- C7: `logError` invokes the registered log function on the message when
one is set and otherwise writes the message to standard error;
`terminateProgram` invokes the registered terminate function when one is
set and otherwise aborts via `std::terminate`; and `clearHooks` unsets both
slots, after which logging writes to standard error and termination
aborts. -/
theorem C7_hook_dispatch (mes : String) (hooks : Hooks) :
    logError { logHookSet := true, termHook := hooks.termHook } mes =
      LogEvent.hookCall mes ∧
    logError { logHookSet := false, termHook := hooks.termHook } mes =
      LogEvent.stderr mes ∧
    terminateProgram { logHookSet := hooks.logHookSet, termHook := TermHook.hookHalts } =
      TermEvent.hookCall ∧
    terminateProgram { logHookSet := hooks.logHookSet, termHook := TermHook.hookReturns } =
      TermEvent.hookCall ∧
    terminateProgram { logHookSet := hooks.logHookSet, termHook := TermHook.noHook } =
      TermEvent.stdTerminate ∧
    clearHooks hooks = { logHookSet := false, termHook := TermHook.noHook } ∧
    logError (clearHooks hooks) mes = LogEvent.stderr mes ∧
    terminateProgram (clearHooks hooks) = TermEvent.stdTerminate :=
  ⟨rfl, rfl, rfl, rfl, rfl, rfl, rfl, rfl⟩

/-- C8: `match` invokes exactly one callback — `onOk` with the success
payload on a success, `onErr` with the error payload on an error — and
leaves the result's discriminant and live payload unchanged afterwards. -/
theorem C8_match_observes_without_consuming {T E : Type} (v : T) (e : E)
    (r : Result T E) :
    (Result.Ok v : Result T E).matchRun = (MatchCall.onOk v, Result.Ok v) ∧
    (Result.Err e : Result T E).matchRun = (MatchCall.onErr e, Result.Err e) ∧
    r.matchRun.2 = r := by
  refine ⟨rfl, rfl, ?_⟩
  cases r <;> rfl

/-- C9: the no-payload success variant (modelled from the spec, absent from
src/): its success constructor takes no argument and carries no data (every
instance is the nullary `Ok` or an `Err`), its `map` and `andThen` invoke
their callable with no argument on the success path only, and every
extraction operation of section 4.4 — `unwrap`, `expect`, `unwrapErr`,
`unwrapOr`, `unwrapOrElse`, `unwrapOrLog`, `unwrapChecked` — has
failure-policy semantics identical to the general variant's: the same log
events and the same terminate events at the corresponding error, hooks and
context (full outcome equality where the returned type coincides), and the
silent success paths return the no-value payload with no events. -/
theorem C9_unit_variant_semantics {T U E : Type} (e2s : E → String)
    (hooks : Hooks) (context expectation : String) (e : E) (f : Unit → U)
    (g : Unit → Result U E) (r : ResultUnit E) (dT : T) (dE : E) (v : T)
    (fbU : Unit → Unit) :
    (ResultUnit.Ok : ResultUnit E).isOk = true ∧
    (ResultUnit.Err e : ResultUnit E).isErr = true ∧
    (r = ResultUnit.Ok ∨ ∃ err, r = ResultUnit.Err err) ∧
    (ResultUnit.Ok : ResultUnit E).mapRun f =
      { result := Result.Ok (f ()), calls := [()], logs := [], terms := [] } ∧
    (ResultUnit.Err e : ResultUnit E).mapRun f =
      { result := Result.Err e, calls := [], logs := [], terms := [] } ∧
    (ResultUnit.Ok : ResultUnit E).andThen g = g () ∧
    (ResultUnit.Err e : ResultUnit E).andThen g = Result.Err e ∧
    ((ResultUnit.Err e : ResultUnit E).unwrap e2s hooks context).logs =
      ((Result.Err e : Result T E).unwrap e2s hooks dT context).logs ∧
    ((ResultUnit.Err e : ResultUnit E).unwrap e2s hooks context).terms =
      ((Result.Err e : Result T E).unwrap e2s hooks dT context).terms ∧
    (ResultUnit.Ok : ResultUnit E).unwrap e2s hooks context =
      { logs := [], terms := [], ret := some () } ∧
    ((ResultUnit.Err e : ResultUnit E).expect e2s hooks expectation).logs =
      ((Result.Err e : Result T E).expect e2s hooks dT expectation).logs ∧
    ((ResultUnit.Err e : ResultUnit E).expect e2s hooks expectation).terms =
      ((Result.Err e : Result T E).expect e2s hooks dT expectation).terms ∧
    (ResultUnit.Ok : ResultUnit E).expect e2s hooks expectation =
      { logs := [], terms := [], ret := some () } ∧
    (ResultUnit.Ok : ResultUnit E).unwrapErr hooks dE context =
      (Result.Ok v : Result T E).unwrapErr e2s hooks dE context ∧
    (ResultUnit.Err e : ResultUnit E).unwrapErr hooks dE context =
      (Result.Err e : Result T E).unwrapErr e2s hooks dE context ∧
    (ResultUnit.Ok : ResultUnit E).unwrapOr () =
      (Result.Ok () : Result Unit E).unwrapOr () ∧
    (ResultUnit.Err e : ResultUnit E).unwrapOr () =
      (Result.Err e : Result Unit E).unwrapOr () ∧
    (ResultUnit.Ok : ResultUnit E).unwrapOrElse fbU =
      (Result.Ok () : Result Unit E).unwrapOrElse fbU ∧
    (ResultUnit.Err e : ResultUnit E).unwrapOrElse fbU =
      (Result.Err e : Result Unit E).unwrapOrElse fbU ∧
    ((ResultUnit.Err e : ResultUnit E).unwrapOrLog e2s hooks context).logs =
      ((Result.Err e : Result T E).unwrapOrLog e2s hooks dT context).logs ∧
    ((ResultUnit.Err e : ResultUnit E).unwrapOrLog e2s hooks context).terms =
      ((Result.Err e : Result T E).unwrapOrLog e2s hooks dT context).terms ∧
    ((ResultUnit.Err e : ResultUnit E).unwrapOrLog e2s hooks context).ret = some () ∧
    (ResultUnit.Ok : ResultUnit E).unwrapOrLog e2s hooks context =
      { logs := [], terms := [], ret := some () } ∧
    ((ResultUnit.Err e : ResultUnit E).unwrapChecked hooks).logs =
      ((Result.Err e : Result T E).unwrapChecked hooks dT).logs ∧
    ((ResultUnit.Err e : ResultUnit E).unwrapChecked hooks).terms =
      ((Result.Err e : Result T E).unwrapChecked hooks dT).terms ∧
    ((ResultUnit.Err e : ResultUnit E).unwrapChecked hooks).ret = some () ∧
    (ResultUnit.Ok : ResultUnit E).unwrapChecked hooks =
      { logs := [], terms := [], ret := some () } := by
  refine ⟨rfl, rfl, ?_, rfl, rfl, rfl, rfl, rfl, rfl, rfl, rfl, rfl, rfl, rfl,
    rfl, rfl, rfl, rfl, rfl, rfl, rfl, rfl, rfl, rfl, rfl, rfl, rfl⟩
  cases r
  · exact Or.inl rfl
  · exact Or.inr ⟨_, rfl⟩

/-- C10: with a terminate hook installed that returns normally, `unwrap`
and `expect` on an error return the default-constructed success value
(modelled by the explicit `d : T` standing for `T\x7b\x7d`) after emitting one log
event, and `unwrapErr` on a success returns the default-constructed error
value after emitting one log event — reflecting that the fatal extraction
operations require the returned type to be default-constructible. -/
theorem C10_returning_terminate_hook_defaults {T E : Type} (e2s : E → String)
    (ls : Bool) (d : T) (dE : E) (context mes : String) (e : E) (v : T) :
    ((Result.Err e : Result T E).unwrap e2s
        { logHookSet := ls, termHook := TermHook.hookReturns } d context).ret = some d ∧
    ((Result.Err e : Result T E).unwrap e2s
        { logHookSet := ls, termHook := TermHook.hookReturns } d context).logs.length = 1 ∧
    ((Result.Err e : Result T E).expect e2s
        { logHookSet := ls, termHook := TermHook.hookReturns } d mes).ret = some d ∧
    ((Result.Err e : Result T E).expect e2s
        { logHookSet := ls, termHook := TermHook.hookReturns } d mes).logs.length = 1 ∧
    ((Result.Ok v : Result T E).unwrapErr e2s
        { logHookSet := ls, termHook := TermHook.hookReturns } dE context).ret = some dE ∧
    ((Result.Ok v : Result T E).unwrapErr e2s
        { logHookSet := ls, termHook := TermHook.hookReturns } dE context).logs.length = 1 :=
  ⟨rfl, rfl, rfl, rfl, rfl, rfl⟩

end CppRustResult
